import Mathlib

/-!
Shallow embedding of the incremental ingestion pipeline of `backbone_crawler.py`
(repository `pedblack/rv-park`), together with theorems settling the frozen
claims about its specification.

Conventions of the embedding:
* pandas data frames become `List Row`; a CSV file on disk becomes
  `Option (List Row)` (`none` = the file does not exist);
* timestamps (`last_scraped`) are integers (days); an unparseable timestamp
  (`pd.NaT` after `errors="coerce"`) is `none`;
* external effects that can fail (writing the CSV, opening the log file) are
  injected as boolean/`Except` outcome parameters, so that the control flow of
  the Python `try/except` blocks is modelled explicitly;
* functions keep the Python names (the leading underscore of
  `_upsert_and_save` is dropped).
-/

namespace Crawler

/-- Configured constants of `backbone_crawler.py` (lines 16-35). -/
def MAX_GEMINI_RETRIES : Nat := 3

def MIN_REVIEWS_THRESHOLD : Nat := 5

def STALENESS_DAYS : Int := 30

def DEV_LIMIT : Nat := 1

def REVIEW_COUNT_THRESHOLD : Nat := 100

/-- The constant `AI_DELAY` is `1.0` seconds in the source; modelled in whole seconds. -/
def AI_DELAY : Nat := 1

/-- One row of the tabular store.  `p4n_id` is the natural key, `title`
stands for all remaining descriptive columns (the merge logic never inspects
them), `last_scraped` is the parsed timestamp (`none` = `NaT`). -/
structure Row where
  p4n_id : String
  title : String
  last_scraped : Option Int
deriving Repr, DecidableEq

/-- Python `str.isspace` on one character (ASCII whitespace: space, tab,
newline, carriage return, vertical tab, form feed). -/
def isSpaceChar (c : Char) : Bool :=
  c = ' ' || c = '\t' || c = '\n' || c = '\r' || c.val = 11 || c.val = 12

/-- Python `str.strip()`: drop leading and trailing whitespace.  (Defined on
the character list so the kernel can evaluate it; `String.trim` of the Lean
library is equivalent but does not reduce in the kernel.) -/
def pyStrip (s : String) : String :=
  ⟨((s.data.dropWhile isSpaceChar).reverse.dropWhile isSpaceChar).reverse⟩

/-- Key normalization of `_upsert_and_save`:
`astype(str).str.strip().replace("nan", "")` (lines 582-587). -/
def normId (s : String) : String :=
  let t := pyStrip s
  if t = "nan" then "" else t

/-- Row normalization on either side of the merge: normalize the key; the
`pd.to_datetime(..., errors="coerce")` timestamp coercion is the identity in
this model because timestamps are already parsed `Option Int`. -/
def normRow (r : Row) : Row := { r with p4n_id := normId r.p4n_id }

/-- Models `DataFrame.drop_duplicates(subset=["p4n_id"], keep="first")`
(line 634): scan in row order, keep the first occurrence of each key.
`seen` accumulates the keys already kept. -/
def dropDupAux (seen : List String) : List Row → List Row
  | [] => []
  | r :: rs =>
    if r.p4n_id ∈ seen then dropDupAux seen rs
    else r :: dropDupAux (r.p4n_id :: seen) rs

def drop_duplicates_first (l : List Row) : List Row := dropDupAux [] l

/-- The pure merge computed by the primary path of `_upsert_and_save`
(lines 580-637): normalize keys on both sides, drop empty-key rows,
concatenate `[new, existing]` (new batch first), and drop duplicate keys
keeping the first occurrence.  The `_is_new` marker columns added on
lines 621-624 are dropped unused on line 637 and do not affect the result. -/
def merge_frames (processed_batch existing_df : List Row) : List Row :=
  let new_df := (processed_batch.map normRow).filter (fun r => r.p4n_id ≠ "")
  let existing :=
    if existing_df = [] then []
    else (existing_df.map normRow).filter (fun r => r.p4n_id ≠ "")
  drop_duplicates_first (new_df ++ existing)

/-- Run-event log entry types emitted by the pipeline. -/
inductive Event where
  | SENT_TO_GEMINI
  | GEMINI_ANSWER
  | GEMINI_ERROR
  | UPSERT_SAVE_ERROR
  | UPSERT_SAVE_FINAL_ERROR
  | START_SCRAPE
  | STORED_ROW
deriving Repr, DecidableEq

/-- Models `P4NScraper._upsert_and_save` (lines 575-663).

* `primaryOk`: the merge-and-write path (everything inside the first `try`,
  lines 579-639) completes without raising; when it fails the on-disk file is
  left as it was (the failure happens at `pd.concat` or at `to_csv`).
* `fallbackOk`: the append-only `to_csv` of the fallback path succeeds.
* `logOk`: `PipelineLogger.log_event` calls succeed (`log_event` opens the
  log file without a `try/except`, so its failure propagates: see
  `log_event` below).

The result is the new on-disk CSV content plus the events logged;
`.error` models an exception escaping to the caller.  The fallback appends
the raw batch (no key normalization, line 646) to the existing file content,
creating the file when absent (lines 652-657). -/
def upsert_and_save (primaryOk fallbackOk logOk : Bool)
    (processed_batch existing_df : List Row)
    (file : Option (List Row)) : Except String (Option (List Row) × List Event) :=
  if processed_batch = [] then .ok (file, [])
  else if primaryOk then
    .ok (some (merge_frames processed_batch existing_df), [])
  else if !logOk then .error "failed to write UPSERT_SAVE_ERROR log entry"
  else if fallbackOk then
    .ok (some ((file.getD []) ++ processed_batch), [.UPSERT_SAVE_ERROR])
  else
    .ok (file, [.UPSERT_SAVE_ERROR, .UPSERT_SAVE_FINAL_ERROR])

/-- The persisted cursor: `queue_state.json` is `{"current_index": n}`. -/
structure QueueState where
  current_index : Nat
deriving Repr, DecidableEq

/-- Models `[line.strip() for line in f if line.strip()]` (lines 98-99, 128-129). -/
def parseUrls (rawLines : List String) : List String :=
  (rawLines.map pyStrip).filter (fun s => s ≠ "")

/-- Models `DailyQueueManager.get_next_partition` (lines 93-122).
`urlFile` is the content of `url_list.txt` (`none` = missing file);
`stateFile` is the parsed state (`none` = missing or corrupt state file,
which the source defaults to index 0). -/
def get_next_partition (urlFile : Option (List String))
    (stateFile : Option QueueState) (batch_size : Nat) :
    List String × Nat × Nat :=
  match urlFile with
  | none => ([], 0, 0)
  | some rawLines =>
    let urls := parseUrls rawLines
    if urls = [] then ([], 0, 0)
    else
      let state := stateFile.getD ⟨0⟩
      let start_idx :=
        if state.current_index ≥ urls.length then 0 else state.current_index
      let target_urls := (List.range batch_size).map
        (fun i => urls.getD ((start_idx + i) % urls.length) "")
      (target_urls, start_idx + 1, urls.length)

/-- Result of `increment_state`: the resulting state-file content and whether
a write was performed at all. -/
structure IncResult where
  stateFile : Option QueueState
  wrote : Bool
deriving Repr, DecidableEq

/-- Models `DailyQueueManager.increment_state` (lines 124-148): no write when the
URL file is missing or holds no URLs; otherwise the cursor advances by
`batch_size` modulo the list length. -/
def increment_state (urlFile : Option (List String))
    (stateFile : Option QueueState) (batch_size : Nat) : IncResult :=
  match urlFile with
  | none => ⟨stateFile, false⟩
  | some rawLines =>
    let urls := parseUrls rawLines
    if urls = [] then ⟨stateFile, false⟩
    else
      ⟨some ⟨((stateFile.getD ⟨0⟩).current_index + batch_size) % urls.length⟩,
        true⟩

/-- First matching row of `existing_df[existing_df["p4n_id"].astype(str) ==
str(p_id)]["last_scraped"].iloc[0]` (lines 514-516), as an option:
`none` = key absent, `some none` = present with unparseable timestamp. -/
def lookupLast (existing_df : List Row) (p_id : String) : Option (Option Int) :=
  (existing_df.find? (fun r => r.p4n_id = p_id)).map (fun r => r.last_scraped)

/-- The staleness decision of `P4NScraper.start` (lines 508-522):
`is_stale` starts `True`; only a present, parseable timestamp younger than
`STALENESS_DAYS` clears it, and only when `force` is off; the item is
processed iff `is_stale or force`. -/
def staleCheck (force : Bool) (existing_df : List Row) (p_id : String)
    (now : Int) : Bool :=
  let is_stale :=
    if !force && !(existing_df = []) then
      match lookupLast existing_df p_id with
      | some (some last_date) =>
        if now - last_date < STALENESS_DAYS then false else true
      | some none => true
      | none => true
    else true
  is_stale || force

/-- Payload value of a run-event log entry after the opportunistic JSON
re-parse of `log_event`. -/
inductive JsonVal where
  | parsed (j : String)
  | raw (s : String)
deriving Repr, DecidableEq

/-- Models `v.strip().startswith("{") or v.strip().startswith("[")` (lines 64-66):
the stripped value opens with a curly brace (code point 123) or a square
bracket (code point 91). -/
def looksJson (v : String) : Bool :=
  match (pyStrip v).data with
  | [] => false
  | c :: _ => c.val = 123 || c.val = 91

/-- The per-value processing loop of `log_event` (lines 62-72): values that
look like serialized JSON are re-parsed; a `json.loads` failure is swallowed
and the raw string kept.  `jsonLoads` abstracts `json.loads` (`none` =
`JSONDecodeError`). -/
def processPayload (jsonLoads : String → Option String)
    (data : List (String × String)) : List (String × JsonVal) :=
  data.map (fun kv =>
    (kv.1,
      if looksJson kv.2 then
        match jsonLoads kv.2 with
        | some j => JsonVal.parsed j
        | none => JsonVal.raw kv.2
      else JsonVal.raw kv.2))

/-- Models `PipelineLogger.log_event` (lines 60-89).  `firstWrite` is
`not PipelineLogger._initialized` (the returned `Bool` is the truncate-mode
flag: `true` = mode `"w"`, `false` = mode `"a"`).  `openOk` is the outcome of
`open(LOG_FILE, mode)`; that call is *not* wrapped in a `try/except`, so its
failure propagates to the caller (`.error`). -/
def log_event (firstWrite openOk : Bool)
    (jsonLoads : String → Option String) (data : List (String × String)) :
    Except String (Bool × List (String × JsonVal)) :=
  let processed := processPayload jsonLoads data
  if openOk then .ok (firstWrite, processed)
  else .error "failed to open or write the log file"

/-- Outcome of one `generate_content` attempt inside `analyze_with_ai`:
either a successfully parsed JSON payload, or an exception with its message
(`isJsonDecodeError` marks `json.JSONDecodeError`). -/
inductive AttemptOutcome where
  | ok (payload : String)
  | exc (isJsonDecodeError : Bool) (msg : String)
deriving Repr, DecidableEq

def s503 : String := "503"

def sOverloaded : String := "overloaded"

def sDeadline : String := "deadline"

/-- Python `str.lower()` restricted to ASCII (the transient-error
signatures are all ASCII). -/
def asciiLower (c : Char) : Char :=
  if c.val ≥ 65 && c.val ≤ 90 then Char.ofNat (c.toNat + 32) else c

def strLower (s : String) : String := ⟨s.data.map asciiLower⟩

/-- Whether `pat` is a prefix of `l`. -/
def prefixOfList : List Char → List Char → Bool
  | [], _ => true
  | _ :: _, [] => false
  | p :: ps, c :: cs => p = c && prefixOfList ps cs

/-- Whether `pat` occurs as a contiguous substring of the haystack
(Python's `pat in s`). -/
def listHasSub (pat : List Char) : List Char → Bool
  | [] => prefixOfList pat []
  | c :: rest => prefixOfList pat (c :: rest) || listHasSub pat rest

/-- Substring test used to classify transient errors (Python `in`). -/
def containsSub (s pat : String) : Bool := listHasSub pat.data s.data

/-- Models `"503" in err_msg or "overloaded" in err_msg or "deadline" in err_msg`
on the lower-cased message (lines 258-261). -/
def isTransientErr (msg : String) : Bool :=
  let m := strLower msg
  containsSub m s503 || containsSub m sOverloaded || containsSub m sDeadline

/-- Result of `analyze_with_ai`: the enrichment payload (`none` = the empty
dict `{}` fallback), the number of endpoint calls made, the delta to the
`gemini_errors` stat, the sleeps performed (in seconds, in order), and the
events logged. -/
structure AiResult where
  result : Option String
  calls : Nat
  gemini_errors : Nat
  delays : List Nat
  events : List Event
deriving Repr, DecidableEq

/-- The retry loop `for attempt in range(MAX_GEMINI_RETRIES)`
(lines 236-274).  Each iteration sleeps `AI_DELAY * (attempt + 1)`, calls the
endpoint once, and on an exception retries only when the error is a JSON
decode error or matches a transient signature *and* attempts remain;
otherwise it logs `GEMINI_ERROR`, bumps the error stat and returns the empty
result.  Falling out of the loop (unreachable for `MAX_GEMINI_RETRIES ≥ 1`)
models Python returning `None`. -/
def geminiLoop (responses : Nat → AttemptOutcome) (attempt calls : Nat)
    (delays : List Nat) (events : List Event) : AiResult :=
  if _h : attempt < MAX_GEMINI_RETRIES then
    let delays := delays ++ [AI_DELAY * (attempt + 1)]
    match responses attempt with
    | .ok payload =>
      ⟨some payload, calls + 1, 0, delays, events ++ [.GEMINI_ANSWER]⟩
    | .exc isJson msg =>
      if (isJson || isTransientErr msg) &&
          decide (attempt < MAX_GEMINI_RETRIES - 1) then
        geminiLoop responses (attempt + 1) (calls + 1) delays events
      else
        ⟨none, calls + 1, 1, delays, events ++ [.GEMINI_ERROR]⟩
  else ⟨none, calls, 0, delays, events⟩
termination_by MAX_GEMINI_RETRIES - attempt

/-- Models `P4NScraper.analyze_with_ai` (lines 186-274).  A failure to load the
taxonomy or prompt file returns `{}` before any logging or endpoint call
(lines 192-221); then the `SENT_TO_GEMINI` event is logged (line 226;
its failure propagates when `logOk` is false); then the retry loop runs.
The model-tier call counters (lines 187-190) are bookkeeping orthogonal to
the claims and are tracked by the caller. -/
def analyze_with_ai (taxonomyOk logOk : Bool)
    (responses : Nat → AttemptOutcome) : Except String AiResult :=
  if !taxonomyOk then .ok ⟨none, 0, 0, [], []⟩
  else if !logOk then .error "failed to write SENT_TO_GEMINI log entry"
  else .ok (geminiLoop responses 0 0 [] [.SENT_TO_GEMINI])

inductive ModelTier where
  | flash
  | lite
deriving Repr, DecidableEq

/-- Effect summary of one `extract_atomic` call: the row appended to
`processed_batch` (if any), whether the enrichment client was invoked, the
model tier selected, and the stat deltas and events produced. -/
structure ExtractOutcome where
  appended : Option Row
  enrichmentCalled : Bool
  tier : Option ModelTier
  read_delta : Nat
  discarded_low_feedback_delta : Nat
  gemini_errors_delta : Nat
  events : List Event
deriving Repr, DecidableEq

/-- Models `P4NScraper.extract_atomic` (lines 276-436).

* the dev-mode short circuit returns immediately once `DEV_LIMIT` successes
  were reached (lines 278-279);
* the `START_SCRAPE` log write (lines 284-292) sits *before* the `try`
  block, so its failure propagates (`logOk = false`);
* `pageOk` covers `page.goto` / `wait_for_selector` succeeding; their
  failure is swallowed by the `except` on line 433 (no row, no stats);
* `count_match` is the `re.search(r"(\d+)", ...)` result on the feedback
  counter text; `actual_feedback_count` defaults to 0 (line 306);
* a count below `MIN_REVIEWS_THRESHOLD` discards the item before enrichment
  (lines 308-313): the low-feedback stat is bumped and nothing is appended;
* otherwise the model tier is chosen by `review_count > REVIEW_COUNT_THRESHOLD`
  (lines 379-381), the enrichment client is called, the row is built with
  `last_scraped = now` and appended after the `STORED_ROW` event
  (lines 428-432).  An exception escaping `analyze_with_ai` would be
  swallowed by the same `except` (no row appended). -/
def extract_atomic (is_dev : Bool) (readSoFar : Nat) (pageOk : Bool)
    (count_match : Option Nat) (p_id title : String) (review_count : Nat)
    (taxonomyOk logOk : Bool) (responses : Nat → AttemptOutcome)
    (now : Int) : Except String ExtractOutcome :=
  if is_dev && decide (DEV_LIMIT ≤ readSoFar) then
    .ok ⟨none, false, none, 0, 0, 0, []⟩
  else if !logOk then .error "failed to write START_SCRAPE log entry"
  else if !pageOk then
    .ok ⟨none, false, none, 0, 0, 0, [.START_SCRAPE]⟩
  else
    let actual_feedback_count := count_match.getD 0
    if actual_feedback_count < MIN_REVIEWS_THRESHOLD then
      .ok ⟨none, false, none, 0, 1, 0, [.START_SCRAPE]⟩
    else
      let selected_model :=
        if REVIEW_COUNT_THRESHOLD < review_count then ModelTier.flash
        else ModelTier.lite
      match analyze_with_ai taxonomyOk logOk responses with
      | .error _ =>
        .ok ⟨none, true, some selected_model, 0, 0, 0, [.START_SCRAPE]⟩
      | .ok ai =>
        .ok ⟨some ⟨p_id, title, some now⟩, true, some selected_model, 1, 0,
          ai.gemini_errors,
          ([Event.START_SCRAPE] ++ ai.events) ++ [Event.STORED_ROW]⟩

/-- Per-item step of the orchestrator loop in `P4NScraper.start`
(lines 503-537): whether `extract_atomic` was scheduled, its outcome, and
the `discarded_fresh` stat delta of the skip branch. -/
structure ItemStep where
  scheduled : Bool
  outcome : ExtractOutcome
  discarded_fresh_delta : Nat
deriving Repr, DecidableEq

/-- One iteration of the `for link in discovered` loop (lines 503-537):
the item is extracted iff `is_stale or force` (`staleCheck`), otherwise it
is skipped as fresh. -/
def process_item (force is_dev : Bool) (existing_df : List Row)
    (readSoFar : Nat) (pageOk : Bool) (count_match : Option Nat)
    (p_id title : String) (review_count : Nat) (taxonomyOk logOk : Bool)
    (responses : Nat → AttemptOutcome) (now : Int) :
    Except String ItemStep :=
  if staleCheck force existing_df p_id now then
    (extract_atomic is_dev readSoFar pageOk count_match p_id title
        review_count taxonomyOk logOk responses now).map
      (fun o => ⟨true, o, 0⟩)
  else .ok ⟨false, ⟨none, false, none, 0, 0, 0, []⟩, 1⟩

/-! Section: Lemmas about the merge -/

theorem mem_of_mem_dropDupAux (seen : List String) (l : List Row) (x : Row)
    (hx : x ∈ dropDupAux seen l) : x ∈ l := by
  induction l generalizing seen with
  | nil => simp [dropDupAux] at hx
  | cons r rs ih =>
    by_cases hs : r.p4n_id ∈ seen
    · simp only [dropDupAux, if_pos hs] at hx
      exact List.mem_cons_of_mem _ (ih _ hx)
    · simp only [dropDupAux, if_neg hs, List.mem_cons] at hx
      rcases hx with h | h
      · exact h ▸ List.mem_cons_self _ _
      · exact List.mem_cons_of_mem _ (ih _ h)

theorem dropDupAux_keys_nodup (seen : List String) (l : List Row) :
    ((dropDupAux seen l).map (fun r => r.p4n_id)).Nodup ∧
      ∀ k ∈ (dropDupAux seen l).map (fun r => r.p4n_id), k ∉ seen := by
  induction l generalizing seen with
  | nil => simp [dropDupAux]
  | cons r rs ih =>
    by_cases hs : r.p4n_id ∈ seen
    · simpa [dropDupAux, if_pos hs] using ih seen
    · have ih2 := ih (r.p4n_id :: seen)
      refine ⟨?_, ?_⟩
      · simp only [dropDupAux, if_neg hs, List.map_cons, List.nodup_cons]
        refine ⟨fun hmem => ?_, ih2.1⟩
        exact (ih2.2 _ hmem) (List.mem_cons_self _ _)
      · intro k hk
        simp only [dropDupAux, if_neg hs, List.map_cons, List.mem_cons] at hk
        rcases hk with h | h
        · exact h ▸ hs
        · intro hk'
          exact (ih2.2 _ h) (List.mem_cons_of_mem _ hk')

theorem dropDupAux_filter_key (l : List Row) (seen : List String) (K : String) :
    (dropDupAux seen l).filter (fun r => r.p4n_id = K) =
      if K ∈ seen then [] else (l.find? (fun r => r.p4n_id = K)).toList := by
  induction l generalizing seen with
  | nil => simp [dropDupAux]
  | cons r rs ih =>
    by_cases hs : r.p4n_id ∈ seen
    · simp only [dropDupAux, if_pos hs]
      rw [ih seen]
      by_cases hK : K ∈ seen
      · simp [hK]
      · have hrK : ¬ r.p4n_id = K := fun h => hK (h ▸ hs)
        simp [hK, List.find?_cons, hrK]
    · simp only [dropDupAux, if_neg hs]
      by_cases hrK : r.p4n_id = K
      · have hK : K ∉ seen := fun h => hs (hrK ▸ h)
        rw [List.filter_cons_of_pos (by simpa using hrK)]
        rw [ih (r.p4n_id :: seen)]
        simp [hrK, List.find?_cons, hK]
      · rw [List.filter_cons_of_neg (by simpa using hrK)]
        rw [ih (r.p4n_id :: seen)]
        by_cases hK : K ∈ seen
        · simp [hK, List.mem_cons, hrK]
        · have hnc : ¬ K ∈ r.p4n_id :: seen := by
            intro hmem
            rcases List.mem_cons.mp hmem with h | h
            · exact hrK h.symm
            · exact hK h
          simp [hnc, hK, List.find?_cons, hrK]

theorem drop_duplicates_first_filter_key (l : List Row) (K : String) :
    (drop_duplicates_first l).filter (fun r => r.p4n_id = K) =
      (l.find? (fun r => r.p4n_id = K)).toList := by
  simpa [drop_duplicates_first] using dropDupAux_filter_key l [] K

theorem find?_append_of_some {p : Row → Bool} {l₁ l₂ : List Row} {r : Row}
    (h : l₁.find? p = some r) : (l₁ ++ l₂).find? p = some r := by
  induction l₁ with
  | nil => simp [List.find?] at h
  | cons a as ih =>
    by_cases ha : p a
    · simp only [List.cons_append, List.find?_cons, ha, cond_true] at h ⊢
      exact h
    · simp only [List.cons_append, List.find?_cons, ha, cond_false] at h ⊢
      exact ih h

theorem mem_merge_frames {batch existing_df : List Row} {r : Row}
    (h : r ∈ merge_frames batch existing_df) :
    (∃ s ∈ batch, r = normRow s) ∨ (∃ s ∈ existing_df, r = normRow s) := by
  have h1 := mem_of_mem_dropDupAux [] _ _ h
  rw [List.mem_append] at h1
  rcases h1 with h1 | h1
  · left
    have h2 := List.mem_filter.mp h1
    obtain ⟨s, hs, hrs⟩ := List.mem_map.mp h2.1
    exact ⟨s, hs, hrs.symm⟩
  · right
    by_cases he : existing_df = []
    · simp [he] at h1
    · simp only [if_neg he] at h1
      have h2 := List.mem_filter.mp h1
      obtain ⟨s, hs, hrs⟩ := List.mem_map.mp h2.1
      exact ⟨s, hs, hrs.symm⟩

theorem merge_frames_keys_nodup (batch existing_df : List Row) :
    ((merge_frames batch existing_df).map (fun r => r.p4n_id)).Nodup := by
  exact (dropDupAux_keys_nodup [] _).1

theorem merge_frames_keys_ne_empty (batch existing_df : List Row) :
    ∀ r ∈ merge_frames batch existing_df, r.p4n_id ≠ "" := by
  intro r h
  have h1 := mem_of_mem_dropDupAux [] _ _ h
  rw [List.mem_append] at h1
  rcases h1 with h1 | h1
  · exact (by simpa using (List.mem_filter.mp h1).2)
  · by_cases he : existing_df = []
    · simp [he] at h1
    · simp only [if_neg he] at h1
      exact (by simpa using (List.mem_filter.mp h1).2)

/-! Section: Cursor trajectory -/

/-- The cursor state after `k` repetitions of `increment_state` with
batch size 1. -/
def iterAdvance (urlFile : Option (List String))
    (stateFile : Option QueueState) : Nat → Option QueueState
  | 0 => stateFile
  | k + 1 => (increment_state urlFile (iterAdvance urlFile stateFile k) 1).stateFile

/-- The `if start_idx >= len(urls): start_idx = 0` clamp of
`get_next_partition` (lines 113-114). -/
def clampIndex (urls : List String) (stateIdx : Nat) : Nat :=
  if stateIdx ≥ urls.length then 0 else stateIdx

/-- The single index drawn by `get_next_partition` with batch size 1:
`(start_idx + 0) % len(urls)` after the clamp (line 119). -/
def drawnIndex (urls : List String) (stateIdx : Nat) : Nat :=
  (clampIndex urls stateIdx + 0) % urls.length

/-- Indices drawn by `get_next_partition` over `steps` successive runs each
followed by a batch-size-1 `increment_state`, starting from stored cursor
`c`. -/
def visitedIndices (rawLines : List String) (c steps : Nat) : List Nat :=
  (List.range steps).map (fun k =>
    match iterAdvance (some rawLines) (some ⟨c⟩) k with
    | some st => drawnIndex (parseUrls rawLines) st.current_index
    | none => 0)

theorem increment_state_eq {rawLines : List String}
    (hne : parseUrls rawLines ≠ []) (c b : Nat) :
    increment_state (some rawLines) (some ⟨c⟩) b =
      ⟨some ⟨(c + b) % (parseUrls rawLines).length⟩, true⟩ := by
  simp [increment_state, hne]

theorem iterAdvance_eq {rawLines : List String}
    (hne : parseUrls rawLines ≠ []) {c : Nat}
    (hc : c < (parseUrls rawLines).length) (k : Nat) :
    iterAdvance (some rawLines) (some ⟨c⟩) k =
      some ⟨(c + k) % (parseUrls rawLines).length⟩ := by
  induction k with
  | zero => simp [iterAdvance, Nat.mod_eq_of_lt hc]
  | succ k ih =>
    rw [iterAdvance, ih, increment_state_eq hne]
    simp only [Nat.mod_add_mod]
    rfl

theorem mod_shift_injOn {N c : Nat} (i j : Nat) (hi : i < N) (hj : j < N)
    (h : (c + i) % N = (c + j) % N) : i = j := by
  have h2 : Nat.ModEq N i j := Nat.ModEq.add_left_cancel' c h
  have h3 : i % N = j % N := h2
  rwa [Nat.mod_eq_of_lt hi, Nat.mod_eq_of_lt hj] at h3

theorem visitedIndices_eq {rawLines : List String}
    (hne : parseUrls rawLines ≠ []) {c : Nat}
    (hc : c < (parseUrls rawLines).length) (steps : Nat) :
    visitedIndices rawLines c steps =
      (List.range steps).map
        (fun k => (c + k) % (parseUrls rawLines).length) := by
  have hpos : 0 < (parseUrls rawLines).length :=
    List.length_pos.mpr hne
  unfold visitedIndices
  apply List.map_congr_left
  intro k _
  rw [iterAdvance_eq hne hc k]
  have hlt : (c + k) % (parseUrls rawLines).length <
      (parseUrls rawLines).length := Nat.mod_lt _ hpos
  simp [drawnIndex, clampIndex, Nat.not_le.mpr hlt, Nat.mod_eq_of_lt hlt]

theorem visitedIndices_nodup {rawLines : List String}
    (hne : parseUrls rawLines ≠ []) {c : Nat}
    (hc : c < (parseUrls rawLines).length) :
    (visitedIndices rawLines c (parseUrls rawLines).length).Nodup := by
  rw [visitedIndices_eq hne hc]
  apply List.Nodup.map_on _ (List.nodup_range _)
  intro i hi j hj hij
  exact mod_shift_injOn i j (List.mem_range.mp hi) (List.mem_range.mp hj) hij

theorem visitedIndices_complete {rawLines : List String}
    (hne : parseUrls rawLines ≠ []) {c : Nat}
    (hc : c < (parseUrls rawLines).length) :
    ∀ j < (parseUrls rawLines).length,
      j ∈ visitedIndices rawLines c (parseUrls rawLines).length := by
  intro j hj
  set N := (parseUrls rawLines).length with hN
  have hpos : 0 < N := List.length_pos.mpr hne
  set V := visitedIndices rawLines c N with hV
  have hnodup : V.Nodup := visitedIndices_nodup hne hc
  have hlen : V.length = N := by
    rw [hV, visitedIndices_eq hne hc]
    simp
  have hbound : ∀ x ∈ V, x < N := by
    intro x hx
    rw [hV, visitedIndices_eq hne hc] at hx
    obtain ⟨k, _, hk⟩ := List.mem_map.mp hx
    rw [← hk]
    exact Nat.mod_lt _ hpos
  have hsub : V.toFinset ⊆ Finset.range N := by
    intro x hx
    exact Finset.mem_range.mpr (hbound x (List.mem_toFinset.mp hx))
  have hcard : (Finset.range N).card ≤ V.toFinset.card := by
    rw [Finset.card_range, List.toFinset_card_of_nodup hnodup, hlen]
  have heq : V.toFinset = Finset.range N :=
    Finset.eq_of_subset_of_card_le hsub hcard
  have : j ∈ V.toFinset := heq ▸ Finset.mem_range.mpr hj
  exact List.mem_toFinset.mp this

/-! Section: Staleness lemmas -/

theorem staleCheck_of_force (existing_df : List Row) (p_id : String)
    (now : Int) : staleCheck true existing_df p_id now = true := by
  simp [staleCheck]

theorem staleCheck_of_lookup_none (force : Bool) (existing_df : List Row)
    (p_id : String) (now : Int) (h : lookupLast existing_df p_id = none) :
    staleCheck force existing_df p_id now = true := by
  cases force with
  | true => simp [staleCheck]
  | false =>
    by_cases he : existing_df = []
    · simp [staleCheck, he]
    · simp [staleCheck, he, h]

theorem staleCheck_of_lookup_nat (force : Bool) (existing_df : List Row)
    (p_id : String) (now : Int)
    (h : lookupLast existing_df p_id = some none) :
    staleCheck force existing_df p_id now = true := by
  cases force with
  | true => simp [staleCheck]
  | false =>
    by_cases he : existing_df = []
    · simp [staleCheck, he]
    · simp [staleCheck, he, h]

theorem staleCheck_of_lookup_some (existing_df : List Row) (p_id : String)
    (now last : Int) (h : lookupLast existing_df p_id = some (some last)) :
    (staleCheck false existing_df p_id now = true ↔
      STALENESS_DAYS ≤ now - last) := by
  have he : ¬ existing_df = [] := by
    intro he
    rw [he] at h
    simp [lookupLast] at h
  by_cases hlt : now - last < STALENESS_DAYS
  all_goals simp [staleCheck, he, h, hlt]
  all_goals omega

/-- C4 (confirmed): the staleness decision of `P4NScraper.start`:
an item with no prior record is stale; an item with a prior record is stale
iff `now - last_fetched ≥ STALENESS_DAYS` (so age `ttl + 1` is stale and age
`ttl - 1` is fresh); a missing/unparseable timestamp makes it stale; and
`force = true` makes it stale unconditionally.  The decision is a pure
function of a read-only snapshot of the existing dataset. -/
theorem C4_staleness_correct :
    ∀ (force : Bool) (existing_df : List Row) (p_id : String) (now : Int),
      (lookupLast existing_df p_id = none →
        staleCheck force existing_df p_id now = true) ∧
      (∀ last, lookupLast existing_df p_id = some (some last) →
        force = false →
        (staleCheck force existing_df p_id now = true ↔
          STALENESS_DAYS ≤ now - last)) ∧
      (lookupLast existing_df p_id = some none →
        staleCheck force existing_df p_id now = true) ∧
      (force = true → staleCheck force existing_df p_id now = true) := by
  intro force existing_df p_id now
  refine ⟨fun h => staleCheck_of_lookup_none force existing_df p_id now h,
    fun last h hf => ?_,
    fun h => staleCheck_of_lookup_nat force existing_df p_id now h,
    fun hf => ?_⟩
  · subst hf
    exact staleCheck_of_lookup_some existing_df p_id now last h
  · subst hf
    exact staleCheck_of_force existing_df p_id now

def pidSeven : String := "7"

def titleX : String := "x"

/-- Witness for C4: with `now = 100`, a record last fetched at `69`
(age `31 = ttl + 1`) is stale, one last fetched at `71` (age `29 = ttl - 1`)
is fresh, an absent record is stale, and `force` wins unconditionally. -/
theorem C4_staleness_correct_witness :
    staleCheck false [⟨pidSeven, titleX, some 69⟩] pidSeven 100 = true ∧
    staleCheck false [⟨pidSeven, titleX, some 71⟩] pidSeven 100 = false ∧
    staleCheck false [] pidSeven 100 = true ∧
    staleCheck true [⟨pidSeven, titleX, some 71⟩] pidSeven 100 = true := by
  refine ⟨?_, ?_, ?_, ?_⟩
  · exact ((C4_staleness_correct false [⟨pidSeven, titleX, some 69⟩]
      pidSeven 100).2.1 69 (by decide) rfl).mpr (by decide)
  · have h := (C4_staleness_correct false [⟨pidSeven, titleX, some 71⟩]
      pidSeven 100).2.1 71 (by decide) rfl
    rcases Bool.eq_false_or_eq_true
        (staleCheck false [⟨pidSeven, titleX, some 71⟩] pidSeven 100) with
      hb | hb
    · exact absurd (h.mp hb) (by decide)
    · exact hb
  · exact (C4_staleness_correct false [] pidSeven 100).1 (by decide)
  · exact (C4_staleness_correct true [⟨pidSeven, titleX, some 71⟩]
      pidSeven 100).2.2.2 rfl

/-- C8 (confirmed): when the partition source file is missing or holds no
URLs, `get_next_partition` returns an empty partition set and
`increment_state` performs no write, leaving the persisted cursor state
unchanged so the same partition is retried next run. -/
theorem C8_missing_source_leaves_cursor :
    ∀ (stateFile : Option QueueState) (b : Nat) (rawLines : List String),
      (get_next_partition none stateFile b = ([], 0, 0)) ∧
      (increment_state none stateFile b = ⟨stateFile, false⟩) ∧
      (parseUrls rawLines = [] →
        get_next_partition (some rawLines) stateFile b = ([], 0, 0) ∧
        increment_state (some rawLines) stateFile b = ⟨stateFile, false⟩) := by
  intro stateFile b rawLines
  refine ⟨rfl, rfl, fun h => ⟨?_, ?_⟩⟩
  · simp [get_next_partition, h]
  · simp [increment_state, h]

/-- Witness for C8: a source file holding only blank lines yields an empty
partition and no cursor write. -/
theorem C8_missing_source_leaves_cursor_witness :
    get_next_partition (some ["", "  "]) (some ⟨2⟩) 1 = ([], 0, 0) ∧
    increment_state (some ["", "  "]) (some ⟨2⟩) 1 = ⟨some ⟨2⟩, false⟩ := by
  exact (C8_missing_source_leaves_cursor (some ⟨2⟩) 1 ["", "  "]).2.2
    (by decide)

/-! Section: Merge-upsert claims -/

instance exceptDecEq {ε α : Type _} [DecidableEq ε] [DecidableEq α] :
    DecidableEq (Except ε α) := fun x y =>
  match x, y with
  | .ok a, .ok b =>
    if h : a = b then isTrue (h ▸ rfl)
    else isFalse (fun hc => h (Except.ok.inj hc))
  | .ok _, .error _ => isFalse (fun hc => Except.noConfusion hc)
  | .error _, .ok _ => isFalse (fun hc => Except.noConfusion hc)
  | .error e, .error f =>
    if h : e = f then isTrue (h ▸ rfl)
    else isFalse (fun hc => h (Except.error.inj hc))

/-- An existing-snapshot row for key `"500"` with the *newer* timestamp. -/
def rowOld : Row := ⟨"500", "old-title", some 200⟩

/-- A new-batch row for the same key `"500"` with the *older* timestamp. -/
def rowNew : Row := ⟨"500", "new-title", some 100⟩

/-- Counterexample to C1 as stated: the existing snapshot holds key `"500"`
at time 200 and the new batch holds the same key at time 100 < 200; the
claim says the time-200 record (the existing one) wins, but the merged
dataset carries the new-batch record's content (`drop_duplicates` keeps the
first occurrence after concatenating `[new, existing]`; no sort by recency
happens). -/
theorem C1_counterexample :
    rowOld.last_scraped = some 200 ∧ rowNew.last_scraped = some 100 ∧
    (100 : Int) < 200 ∧
    merge_frames [rowNew] [rowOld] = [rowNew] ∧
    rowNew.title ≠ rowOld.title := by
  decide

/-- C1 (amended): for a key `K` present in the (normalized, nonempty-key)
new batch, the merged dataset contains exactly one row for `K`, namely the
first new-batch row with that key — the new batch wins over the existing
snapshot regardless of timestamps (arrival order, not recency, decides). -/
theorem C1_upsert_merge_new_batch_wins :
    ∀ (processed_batch existing_df : List Row) (K : String) (r : Row),
      ((processed_batch.map normRow).filter
          (fun x => x.p4n_id ≠ "")).find? (fun x => x.p4n_id = K) = some r →
      (merge_frames processed_batch existing_df).filter
          (fun x => x.p4n_id = K) = [r] := by
  intro processed_batch existing_df K r h
  unfold merge_frames
  rw [drop_duplicates_first_filter_key]
  rw [find?_append_of_some h]
  rfl

/-- Witness for C1 (amended): at the concrete input of the counterexample,
the merged dataset holds exactly the new-batch row for key `"500"`. -/
theorem C1_upsert_merge_new_batch_wins_witness :
    (merge_frames [rowNew] [rowOld]).filter
        (fun x => x.p4n_id = "500") = [rowNew] := by
  exact C1_upsert_merge_new_batch_wins [rowNew] [rowOld] "500" rowNew
    (by decide)

/-- Counterexample to C2 as stated: (a) a completed upsert on the fallback
path (primary merge failed, append succeeded) leaves *two* live rows for
`external_id = "500"` in the persisted store; (b) a completed upsert on the
primary path replaces the stored row for `"500"` timestamped 200 by one
timestamped 100, so `last_scraped` decreases across successive writes. -/
theorem C2_counterexample :
    (upsert_and_save false true true [rowNew] [rowOld] (some [rowOld]) =
      .ok (some [rowOld, rowNew], [Event.UPSERT_SAVE_ERROR])) ∧
    (([rowOld, rowNew].filter (fun r => r.p4n_id = "500")).length = 2) ∧
    (upsert_and_save true true true [rowNew] [rowOld] (some [rowOld]) =
      .ok (some [rowNew], [])) ∧
    rowOld.last_scraped = some 200 ∧ rowNew.last_scraped = some 100 ∧
    (100 : Int) < 200 := by
  decide

/-- C2 (amended): after a completed upsert that took the *primary* merge
path, the persisted store contains exactly one live row per `external_id`
(all keys pairwise distinct) and no empty-key row; neither key uniqueness on
the fallback append path nor monotonicity of the stored timestamp is
guaranteed. -/
theorem C2_primary_path_unique_keys :
    ∀ (fallbackOk logOk : Bool) (processed_batch existing_df : List Row)
      (file : Option (List Row)),
      processed_batch ≠ [] →
      upsert_and_save true fallbackOk logOk processed_batch existing_df
          file =
        .ok (some (merge_frames processed_batch existing_df), []) ∧
      ((merge_frames processed_batch existing_df).map
          (fun r => r.p4n_id)).Nodup ∧
      (∀ r ∈ merge_frames processed_batch existing_df, r.p4n_id ≠ "") := by
  intro fallbackOk logOk processed_batch existing_df file hb
  refine ⟨?_, merge_frames_keys_nodup _ _, merge_frames_keys_ne_empty _ _⟩
  simp [upsert_and_save, hb]

/-- Witness for C2 (amended): concrete primary-path upsert with a duplicate
key across batch and snapshot yields a single-row store. -/
theorem C2_primary_path_unique_keys_witness :
    upsert_and_save true true true [rowNew] [rowOld] (some [rowOld]) =
      .ok (some (merge_frames [rowNew] [rowOld]), []) ∧
    ((merge_frames [rowNew] [rowOld]).map (fun r => r.p4n_id)).Nodup := by
  have h := C2_primary_path_unique_keys true true [rowNew] [rowOld]
    (some [rowOld]) (by decide)
  exact ⟨h.1, h.2.1⟩

/-! Section: Cursor claims -/

/-- A concrete three-entry URL list. -/
def exUrls : List String := ["a", "b", "c"]

/-- Counterexample to C3 as stated: with `N = 3` URLs and the *out-of-range*
stored cursor `4`, three batch-size-1 advances land on cursor `1`, not back
on `4`, and the three partitions drawn visit index `0` twice and index `1`
never — so "every starting cursor value" is too strong. -/
theorem C3_counterexample :
    (parseUrls exUrls).length = 3 ∧
    iterAdvance (some exUrls) (some ⟨4⟩) 3 = some ⟨1⟩ ∧
    (1 : Nat) ≠ 4 ∧
    visitedIndices exUrls 4 3 = [0, 2, 0] ∧
    ¬ (1 ∈ visitedIndices exUrls 4 3) := by
  decide

/-- C3 (amended): for every URL list with `N ≥ 1` parsed entries, every
batch size `b` and every stored cursor, `increment_state` maps the cursor to
`(cursor + b) % N` (and after every successful advance the cursor is `< N`);
*provided the starting cursor is in range* (`cursor < N`, which holds after
any successful advance), `N` batch-size-1 advances return the cursor to its
starting value and the partitions drawn over those `N` runs visit each of
the `N` indices exactly once; an out-of-range stored index is clamped to `0`
by `get_next_partition` and wrapped modulo `N` by `increment_state` rather
than failing. -/
theorem C3_cursor_advance :
    ∀ (rawLines : List String) (stateFile : Option QueueState) (b : Nat),
      parseUrls rawLines ≠ [] →
      (increment_state (some rawLines) stateFile b =
        ⟨some ⟨((stateFile.getD ⟨0⟩).current_index + b) %
          (parseUrls rawLines).length⟩, true⟩) ∧
      (((stateFile.getD ⟨0⟩).current_index + b) %
          (parseUrls rawLines).length < (parseUrls rawLines).length) ∧
      (∀ c : Nat, c < (parseUrls rawLines).length →
        iterAdvance (some rawLines) (some ⟨c⟩)
            (parseUrls rawLines).length = some ⟨c⟩ ∧
        (visitedIndices rawLines c (parseUrls rawLines).length).Nodup ∧
        (∀ j < (parseUrls rawLines).length,
          j ∈ visitedIndices rawLines c (parseUrls rawLines).length)) ∧
      (∀ st : Nat,
        get_next_partition (some rawLines) (some ⟨st⟩) 1 =
          ([(parseUrls rawLines).getD (drawnIndex (parseUrls rawLines) st)
              ""],
            clampIndex (parseUrls rawLines) st + 1,
            (parseUrls rawLines).length)) := by
  intro rawLines stateFile b hne
  have hpos : 0 < (parseUrls rawLines).length := List.length_pos.mpr hne
  refine ⟨?_, Nat.mod_lt _ hpos, fun c hc => ⟨?_, ?_, ?_⟩, fun st => ?_⟩
  · simp [increment_state, hne]
  · rw [iterAdvance_eq hne hc, Nat.add_mod_right, Nat.mod_eq_of_lt hc]
  · exact visitedIndices_nodup hne hc
  · exact visitedIndices_complete hne hc
  · simp only [get_next_partition, hne, if_neg (by simpa using hne)]
    simp [drawnIndex, clampIndex, List.range_succ, ge_iff_le, Option.getD]

/-- Witness for C3 (amended): the concrete list of three URLs with in-range
starting cursor `2`: one advance yields `(2 + 1) % 3 = 0 < 3`, three
advances return to `2`, the three partitions drawn are the indices
`[2, 0, 1]`, and `get_next_partition` draws index `2` first. -/
theorem C3_cursor_advance_witness :
    increment_state (some exUrls) (some ⟨2⟩) 1 = ⟨some ⟨0⟩, true⟩ ∧
    iterAdvance (some exUrls) (some ⟨2⟩) 3 = some ⟨2⟩ ∧
    (visitedIndices exUrls 2 3).Nodup ∧
    (0 ∈ visitedIndices exUrls 2 3 ∧ 1 ∈ visitedIndices exUrls 2 3 ∧
      2 ∈ visitedIndices exUrls 2 3) ∧
    get_next_partition (some exUrls) (some ⟨2⟩) 1 = (["c"], 3, 3) := by
  have h := C3_cursor_advance exUrls (some ⟨2⟩) 1 (by decide)
  have hlen : (parseUrls exUrls).length = 3 := by decide
  have h2 := h.2.2.1 2 (by rw [hlen]; decide)
  refine ⟨?_, ?_, ?_, ?_, ?_⟩
  · have := h.1
    rw [hlen] at this
    simpa using this
  · have := h2.1
    rw [hlen] at this
    exact this
  · have := h2.2.1
    rw [hlen] at this
    exact this
  · refine ⟨?_, ?_, ?_⟩
    · exact (hlen ▸ h2.2.2) 0 (by decide)
    · exact (hlen ▸ h2.2.2) 1 (by decide)
    · exact (hlen ▸ h2.2.2) 2 (by decide)
  · have := h.2.2.2 2
    rw [hlen] at this
    simpa using this

/-! Section: Fallback and logging claims -/

/-- C5 (confirmed): if the primary merge-and-write path of the upsert
raises (`primaryOk = false`), with the event-log sink writable, the
operation does not raise out to its caller for any fallback outcome, and
when the fallback append succeeds the persisted file is the old content
with the whole new batch appended — every new record is persisted. -/
theorem C5_fallback_persists_batch :
    ∀ (fallbackOk : Bool) (processed_batch existing_df : List Row)
      (file : Option (List Row)),
      ((upsert_and_save false fallbackOk true processed_batch existing_df
          file).isOk = true) ∧
      (processed_batch ≠ [] →
        upsert_and_save false true true processed_batch existing_df file =
          .ok ((some ((file.getD []) ++ processed_batch)),
            [Event.UPSERT_SAVE_ERROR]) ∧
        ∀ r ∈ processed_batch, r ∈ (file.getD []) ++ processed_batch) := by
  intro fallbackOk processed_batch existing_df file
  constructor
  · by_cases hb : processed_batch = []
    · simp [upsert_and_save, hb, Except.isOk, Except.toBool]
    · cases fallbackOk <;>
        simp [upsert_and_save, hb, Except.isOk, Except.toBool]
  · intro hb
    refine ⟨by simp [upsert_and_save, hb], fun r hr => ?_⟩
    exact List.mem_append_right _ hr

/-- Witness for C5: a failed primary path over an existing one-row file
appends the new batch and returns normally. -/
theorem C5_fallback_persists_batch_witness :
    (upsert_and_save false false true [rowNew] [] (some [rowOld])).isOk
        = true ∧
    upsert_and_save false true true [rowNew] [] (some [rowOld]) =
      .ok (some [rowOld, rowNew], [Event.UPSERT_SAVE_ERROR]) ∧
    rowNew ∈ [rowOld] ++ [rowNew] := by
  have h := C5_fallback_persists_batch false [rowNew] [] (some [rowOld])
  have h2 := (C5_fallback_persists_batch true [rowNew] []
    (some [rowOld])).2 (by decide)
  exact ⟨h.1, h2.1, h2.2 rowNew (by decide)⟩

/-- Counterexample to C9 as stated: when the log file cannot be opened
(`openOk = false`), `log_event` raises to its caller instead of swallowing
the failure — here at the concrete input of a first write with an empty
payload. -/
theorem C9_counterexample :
    (log_event true false (fun _ => none) []).isOk = false := by
  decide

/-- C9 (amended): `log_event` swallows `json.loads` failures on payload
values that look like serialized JSON (the raw string is kept), but a
failure to open or write the log file itself propagates to the caller;
when the open succeeds the call returns normally with the processed
payload. -/
theorem C9_log_event_open_failure_raises :
    ∀ (firstWrite : Bool) (jsonLoads : String → Option String)
      (data : List (String × String)),
      (log_event firstWrite true jsonLoads data =
        .ok (firstWrite, processPayload jsonLoads data)) ∧
      ((log_event firstWrite false jsonLoads data).isOk = false) ∧
      (∀ k v, jsonLoads v = none →
        processPayload jsonLoads ((k, v) :: data) =
          (k, JsonVal.raw v) :: processPayload jsonLoads data) := by
  intro firstWrite jsonLoads data
  refine ⟨rfl, rfl, fun k v hv => ?_⟩
  by_cases hl : looksJson v
  · simp [processPayload, hl, hv]
  · simp [processPayload, hl]

def sBadPayload : String := "\x7b not valid json"

/-- Witness for C9 (amended): a parser that rejects everything still leaves
`log_event` returning normally when the file opens, with the offending
value kept raw. -/
theorem C9_log_event_open_failure_raises_witness :
    log_event true true (fun _ => none) [(titleX, sBadPayload)] =
      .ok (true, [(titleX, JsonVal.raw sBadPayload)]) := by
  have h := C9_log_event_open_failure_raises true (fun _ => none)
    [(titleX, sBadPayload)]
  rw [h.1]
  have h2 := (C9_log_event_open_failure_raises true (fun _ => none)
    ([] : List (String × String))).2.2 titleX sBadPayload rfl
  rw [h2]
  rfl

/-! Section: Enrichment retry claims -/

theorem geminiLoop_step (responses : Nat → AttemptOutcome)
    (attempt calls : Nat) (delays : List Nat) (events : List Event)
    (h : attempt < MAX_GEMINI_RETRIES) :
    geminiLoop responses attempt calls delays events =
      match responses attempt with
      | .ok payload =>
        ⟨some payload, calls + 1, 0, delays ++ [AI_DELAY * (attempt + 1)],
          events ++ [.GEMINI_ANSWER]⟩
      | .exc isJson msg =>
        if (isJson || isTransientErr msg) &&
            decide (attempt < MAX_GEMINI_RETRIES - 1) then
          geminiLoop responses (attempt + 1) (calls + 1)
            (delays ++ [AI_DELAY * (attempt + 1)]) events
        else
          ⟨none, calls + 1, 1, delays ++ [AI_DELAY * (attempt + 1)],
            events ++ [.GEMINI_ERROR]⟩ := by
  rw [geminiLoop]
  simp only [dif_pos h]

theorem analyze_with_ai_ok (responses : Nat → AttemptOutcome) :
    analyze_with_ai true true responses =
      .ok (geminiLoop responses 0 0 [] [.SENT_TO_GEMINI]) := rfl

theorem geminiLoop_retry (responses : Nat → AttemptOutcome)
    (attempt calls : Nat) (delays : List Nat) (events : List Event)
    (h : attempt < MAX_GEMINI_RETRIES) (isJson : Bool) (msg : String)
    (hr : responses attempt = .exc isJson msg)
    (hcond : (isJson || isTransientErr msg) = true)
    (hlt : attempt < MAX_GEMINI_RETRIES - 1) :
    geminiLoop responses attempt calls delays events =
      geminiLoop responses (attempt + 1) (calls + 1)
        (delays ++ [AI_DELAY * (attempt + 1)]) events := by
  rw [geminiLoop_step _ _ _ _ _ h, hr]
  dsimp only
  rw [if_pos (by simp [hcond, hlt])]

theorem geminiLoop_fail (responses : Nat → AttemptOutcome)
    (attempt calls : Nat) (delays : List Nat) (events : List Event)
    (h : attempt < MAX_GEMINI_RETRIES) (isJson : Bool) (msg : String)
    (hr : responses attempt = .exc isJson msg)
    (hcond : ((isJson || isTransientErr msg) &&
      decide (attempt < MAX_GEMINI_RETRIES - 1)) = false) :
    geminiLoop responses attempt calls delays events =
      ⟨none, calls + 1, 1, delays ++ [AI_DELAY * (attempt + 1)],
        events ++ [.GEMINI_ERROR]⟩ := by
  rw [geminiLoop_step _ _ _ _ _ h, hr]
  dsimp only
  rw [if_neg (by simp [hcond])]

def mBadJson : String := "Expecting value at line 1 column 1"

def mOverload : String := "503 the model is overloaded, try again later"

def mPermission : String := "permission denied for project"

/-- C6 (confirmed): with the taxonomy loadable and the log sink writable,
an enrichment endpoint whose response is schema-invalid (fails JSON
parsing) on every attempt is called exactly `MAX_GEMINI_RETRIES = 3` times,
after which `analyze_with_ai` returns the empty result without raising; the
same bounded retry with a strictly increasing inter-attempt delay applies
when every attempt fails with a transient signature (503 / overloaded /
deadline); and a non-retryable error on the first attempt yields the empty
result after a single call, with a `GEMINI_ERROR` event recorded and the
error stat bumped in every exhaustion case. -/
theorem C6_enrichment_retry_bound :
    MAX_GEMINI_RETRIES = 3 ∧
    ∀ responses : Nat → AttemptOutcome,
      ((∀ i, i < MAX_GEMINI_RETRIES →
          ∃ m, responses i = .exc true m) →
        ∃ res, analyze_with_ai true true responses = .ok res ∧
          res.result = none ∧ res.calls = MAX_GEMINI_RETRIES ∧
          res.gemini_errors = 1 ∧ Event.GEMINI_ERROR ∈ res.events ∧
          res.delays = [AI_DELAY * 1, AI_DELAY * 2, AI_DELAY * 3] ∧
          List.Chain' (· < ·) res.delays) ∧
      ((∀ i, i < MAX_GEMINI_RETRIES →
          ∃ m, responses i = .exc false m ∧ isTransientErr m = true) →
        ∃ res, analyze_with_ai true true responses = .ok res ∧
          res.result = none ∧ res.calls = MAX_GEMINI_RETRIES ∧
          res.gemini_errors = 1 ∧ Event.GEMINI_ERROR ∈ res.events ∧
          res.delays = [AI_DELAY * 1, AI_DELAY * 2, AI_DELAY * 3] ∧
          List.Chain' (· < ·) res.delays) ∧
      (∀ m, responses 0 = .exc false m → isTransientErr m = false →
        ∃ res, analyze_with_ai true true responses = .ok res ∧
          res.result = none ∧ res.calls = 1 ∧ res.gemini_errors = 1 ∧
          Event.GEMINI_ERROR ∈ res.events) := by
  refine ⟨rfl, fun responses => ⟨?_, ?_, ?_⟩⟩
  · intro hjson
    obtain ⟨m0, h0⟩ := hjson 0 (by decide)
    obtain ⟨m1, h1⟩ := hjson 1 (by decide)
    obtain ⟨m2, h2⟩ := hjson 2 (by decide)
    refine ⟨⟨none, 3, 1, [1, 2, 3],
      [.SENT_TO_GEMINI, .GEMINI_ERROR]⟩, ?_, rfl, rfl, rfl, by decide, rfl,
      by norm_num [List.chain'_cons, List.chain'_singleton]⟩
    rw [analyze_with_ai_ok,
      geminiLoop_retry responses 0 0 [] _ (by decide) true m0 h0
        (by simp) (by decide),
      geminiLoop_retry responses 1 1 _ _ (by decide) true m1 h1
        (by simp) (by decide),
      geminiLoop_fail responses 2 2 _ _ (by decide) true m2 h2
        (by simp [MAX_GEMINI_RETRIES])]
    rfl
  · intro htr
    obtain ⟨m0, h0, ht0⟩ := htr 0 (by decide)
    obtain ⟨m1, h1, ht1⟩ := htr 1 (by decide)
    obtain ⟨m2, h2, ht2⟩ := htr 2 (by decide)
    refine ⟨⟨none, 3, 1, [1, 2, 3],
      [.SENT_TO_GEMINI, .GEMINI_ERROR]⟩, ?_, rfl, rfl, rfl, by decide, rfl,
      by norm_num [List.chain'_cons, List.chain'_singleton]⟩
    rw [analyze_with_ai_ok,
      geminiLoop_retry responses 0 0 [] _ (by decide) false m0 h0
        (by simp [ht0]) (by decide),
      geminiLoop_retry responses 1 1 _ _ (by decide) false m1 h1
        (by simp [ht1]) (by decide),
      geminiLoop_fail responses 2 2 _ _ (by decide) false m2 h2
        (by simp [MAX_GEMINI_RETRIES])]
    rfl
  · intro m h0 htr
    refine ⟨⟨none, 1, 1, [1], [.SENT_TO_GEMINI, .GEMINI_ERROR]⟩, ?_, rfl,
      rfl, rfl, by decide⟩
    rw [analyze_with_ai_ok,
      geminiLoop_fail responses 0 0 [] _ (by decide) false m h0
        (by simp [htr])]
    rfl

/-- Witness for C6: three concrete clients — always-invalid-JSON,
always-503-overloaded, and permission-denied — exercised through the
theorem. -/
theorem C6_enrichment_retry_bound_witness :
    (∃ res, analyze_with_ai true true
        (fun _ => AttemptOutcome.exc true mBadJson) = .ok res ∧
      res.result = none ∧ res.calls = MAX_GEMINI_RETRIES ∧
      res.gemini_errors = 1 ∧ Event.GEMINI_ERROR ∈ res.events ∧
      res.delays = [AI_DELAY * 1, AI_DELAY * 2, AI_DELAY * 3] ∧
      List.Chain' (· < ·) res.delays) ∧
    (∃ res, analyze_with_ai true true
        (fun _ => AttemptOutcome.exc false mOverload) = .ok res ∧
      res.result = none ∧ res.calls = MAX_GEMINI_RETRIES ∧
      res.gemini_errors = 1 ∧ Event.GEMINI_ERROR ∈ res.events ∧
      res.delays = [AI_DELAY * 1, AI_DELAY * 2, AI_DELAY * 3] ∧
      List.Chain' (· < ·) res.delays) ∧
    (∃ res, analyze_with_ai true true
        (fun _ => AttemptOutcome.exc false mPermission) = .ok res ∧
      res.result = none ∧ res.calls = 1 ∧ res.gemini_errors = 1 ∧
      Event.GEMINI_ERROR ∈ res.events) := by
  refine ⟨?_, ?_, ?_⟩
  · exact (C6_enrichment_retry_bound.2
      (fun _ => AttemptOutcome.exc true mBadJson)).1
      (fun i _ => ⟨mBadJson, rfl⟩)
  · exact (C6_enrichment_retry_bound.2
      (fun _ => AttemptOutcome.exc false mOverload)).2.1
      (fun i _ => ⟨mOverload, rfl, by decide⟩)
  · exact (C6_enrichment_retry_bound.2
      (fun _ => AttemptOutcome.exc false mPermission)).2.2 mPermission rfl
      (by decide)

/-! Section: Quality-gate claims -/

theorem merge_frames_key_absent (batch existing_df : List Row) (K : String)
    (hb : ∀ r ∈ batch, normId r.p4n_id ≠ K)
    (he : ∀ r ∈ existing_df, normId r.p4n_id ≠ K) :
    ∀ r ∈ merge_frames batch existing_df, r.p4n_id ≠ K := by
  intro r hr
  rcases mem_merge_frames hr with ⟨s, hs, hrs⟩ | ⟨s, hs, hrs⟩
  · exact hrs ▸ hb s hs
  · exact hrs ▸ he s hs

theorem analyze_with_ai_isOk (taxonomyOk : Bool)
    (responses : Nat → AttemptOutcome) :
    ∃ ai, analyze_with_ai taxonomyOk true responses = .ok ai := by
  cases taxonomyOk
  · exact ⟨_, rfl⟩
  · exact ⟨_, rfl⟩

/-- The discard outcome of the quality gate: no row appended, no enrichment
call, no model tier, the low-feedback counter bumped by one, no error
recorded. -/
def lowSignalDiscard : ExtractOutcome :=
  ⟨none, false, none, 0, 1, 0, [.START_SCRAPE]⟩

theorem extract_atomic_low_signal (readSoFar : Nat)
    (count_match : Option Nat) (p_id title : String) (review_count : Nat)
    (taxonomyOk : Bool) (responses : Nat → AttemptOutcome) (now : Int)
    (hcount : count_match.getD 0 < MIN_REVIEWS_THRESHOLD) :
    extract_atomic false readSoFar true count_match p_id title review_count
        taxonomyOk true responses now = .ok lowSignalDiscard := by
  simp [extract_atomic, hcount, lowSignalDiscard]

/-- C7 (confirmed): a candidate whose extracted feedback count is strictly
below `MIN_REVIEWS_THRESHOLD` is discarded by `extract_atomic` before
enrichment — no enrichment call, no row appended to the processed batch, a
low-signal discard counted and no error recorded — and a key absent from
both the batch and the snapshot is absent from the dataset write; while an
item with count at or above the threshold proceeds to enrichment and is
appended for storage. -/
theorem C7_quality_gate :
    ∀ (readSoFar : Nat) (count_match : Option Nat) (p_id title : String)
      (review_count : Nat) (taxonomyOk : Bool)
      (responses : Nat → AttemptOutcome) (now : Int),
      (count_match.getD 0 < MIN_REVIEWS_THRESHOLD →
        extract_atomic false readSoFar true count_match p_id title
            review_count taxonomyOk true responses now =
          .ok lowSignalDiscard ∧
        lowSignalDiscard.appended = none ∧
        lowSignalDiscard.enrichmentCalled = false ∧
        lowSignalDiscard.discarded_low_feedback_delta = 1 ∧
        lowSignalDiscard.gemini_errors_delta = 0) ∧
      (MIN_REVIEWS_THRESHOLD ≤ count_match.getD 0 →
        ∃ out, extract_atomic false readSoFar true count_match p_id title
            review_count taxonomyOk true responses now = .ok out ∧
          out.enrichmentCalled = true ∧
          out.appended = some ⟨p_id, title, some now⟩ ∧
          out.read_delta = 1) ∧
      (∀ (batch existing_df : List Row) (K : String),
        (∀ r ∈ batch, normId r.p4n_id ≠ K) →
        (∀ r ∈ existing_df, normId r.p4n_id ≠ K) →
        ∀ r ∈ merge_frames batch existing_df, r.p4n_id ≠ K) := by
  intro readSoFar count_match p_id title review_count taxonomyOk responses
    now
  refine ⟨fun hcount => ⟨extract_atomic_low_signal readSoFar count_match
    p_id title review_count taxonomyOk responses now hcount, rfl, rfl, rfl,
    rfl⟩, fun hcount => ?_, merge_frames_key_absent⟩
  obtain ⟨ai, hai⟩ := analyze_with_ai_isOk taxonomyOk responses
  refine ⟨⟨some ⟨p_id, title, some now⟩, true,
    some (if REVIEW_COUNT_THRESHOLD < review_count then ModelTier.flash
      else ModelTier.lite), 1, 0, ai.gemini_errors,
    ([Event.START_SCRAPE] ++ ai.events) ++ [Event.STORED_ROW]⟩, ?_, rfl,
    rfl, rfl⟩
  simp [extract_atomic, Nat.not_lt.mpr hcount, hai]

/-- Witness for C7: a count of 4 (one below the threshold 5) is discarded;
a count of 5 proceeds to enrichment and is appended. -/
theorem C7_quality_gate_witness :
    (extract_atomic false 0 true (some 4) pidSeven titleX 0 true true
        (fun _ => AttemptOutcome.ok titleX) 100 = .ok lowSignalDiscard) ∧
    (∃ out, extract_atomic false 0 true (some 5) pidSeven titleX 0 true
        true (fun _ => AttemptOutcome.ok titleX) 100 = .ok out ∧
      out.enrichmentCalled = true ∧
      out.appended = some ⟨pidSeven, titleX, some 100⟩ ∧
      out.read_delta = 1) := by
  have h := C7_quality_gate 0 (some 4) pidSeven titleX 0 true
    (fun _ => AttemptOutcome.ok titleX) 100
  have h5 := C7_quality_gate 0 (some 5) pidSeven titleX 0 true
    (fun _ => AttemptOutcome.ok titleX) 100
  exact ⟨(h.1 (by decide)).1, h5.2.1 (by decide)⟩

/-- C10 (confirmed): the `force` flag bypasses only the staleness check,
not the quality gate.  With `force = true` the item is always scheduled, yet
a candidate whose feedback count is below `MIN_REVIEWS_THRESHOLD` is still
discarded by `extract_atomic` — no enrichment call, no row appended — for
*every* value of `force`; no persisted marker records the discard (only the
in-memory counter changes, the batch gains no row), and since the key stays
absent from the store the staleness check finds no prior record on any
later cycle, so the item is re-evaluated from scratch. -/
theorem C10_force_does_not_bypass_quality_gate :
    ∀ (force : Bool) (existing_df : List Row) (readSoFar : Nat)
      (count_match : Option Nat) (p_id title : String)
      (review_count : Nat) (taxonomyOk : Bool)
      (responses : Nat → AttemptOutcome) (now : Int),
      count_match.getD 0 < MIN_REVIEWS_THRESHOLD →
      (process_item true false existing_df readSoFar true count_match p_id
          title review_count taxonomyOk true responses now =
        .ok ⟨true, lowSignalDiscard, 0⟩) ∧
      (∀ step, process_item force false existing_df readSoFar true
          count_match p_id title review_count taxonomyOk true responses
          now = .ok step →
        step.outcome.appended = none ∧
        step.outcome.enrichmentCalled = false) ∧
      (∀ (existing2 : List Row) (force2 : Bool) (now2 : Int),
        lookupLast existing2 p_id = none →
        staleCheck force2 existing2 p_id now2 = true) := by
  intro force existing_df readSoFar count_match p_id title review_count
    taxonomyOk responses now hcount
  have hlow := extract_atomic_low_signal readSoFar count_match p_id title
    review_count taxonomyOk responses now hcount
  refine ⟨?_, fun step hstep => ?_, fun existing2 force2 now2 h =>
    staleCheck_of_lookup_none force2 existing2 p_id now2 h⟩
  · simp [process_item, staleCheck_of_force, hlow, Except.map]
  · by_cases hst : staleCheck force existing_df p_id now
    · simp only [process_item, if_pos hst, hlow, Except.map] at hstep
      cases hstep
      exact ⟨rfl, rfl⟩
    · simp only [process_item, if_neg hst] at hstep
      cases hstep
      exact ⟨rfl, rfl⟩

/-- Witness for C10: a four-review candidate under `force = true` is
scheduled but discarded with nothing appended, and with the key absent from
the store the next cycle's staleness check reprocesses it. -/
theorem C10_force_does_not_bypass_quality_gate_witness :
    process_item true false [rowOld] 0 true (some 4) pidSeven titleX 0
        true true (fun _ => AttemptOutcome.ok titleX) 100 =
      .ok ⟨true, lowSignalDiscard, 0⟩ ∧
    staleCheck true [rowOld] pidSeven 200 = true := by
  have h := C10_force_does_not_bypass_quality_gate true [rowOld] 0 (some 4)
    pidSeven titleX 0 true (fun _ => AttemptOutcome.ok titleX) 100
    (by decide)
  exact ⟨h.1, h.2.2 [rowOld] true 200 (by decide)⟩

end Crawler
